import Mathlib

/-!
# Verification of the transcription worker pipeline

A shallow embedding of the asynchronous transcription job pipeline of
`tasks.py` (format detection, per-process model cache, segment
post-processing, callback delivery with retries, and the job runner
`transcribe_audio_with_callback`), together with theorems settling the
specification's claims about it.

Modelling conventions:
* raw audio bytes are `List Nat` (each entry one byte);
* Python strings that post-processing manipulates character by character
  (segment texts, the transcription) are `List Char`; identifiers,
  URLs and error messages are Lean `String`s;
* external effects (the ffmpeg subprocess, the whisper engine, the HTTP
  POST of the callback) are oracle fields of an `Env` record;
* the filesystem footprint of one job is the pair of temporary paths the
  code can create (the original persisted file and the normalized wav),
  tracked as two booleans.
-/

namespace Transcription

/-! ## Audio format detection (`detect_audio_format`, tasks.py lines 62-77) -/

/-- The function `detect_audio_format` from tasks.py: classify the container format from
the magic prefix of the byte sequence; unmatched inputs fall back to webm. -/
def detect_audio_format (audio_data : List Nat) : String :=
  if [0x52, 0x49, 0x46, 0x46].isPrefixOf audio_data then ".wav"
  else if [0x1a, 0x45, 0xdf, 0xa3].isPrefixOf audio_data then ".webm"
  else if [0x4f, 0x67, 0x67, 0x53].isPrefixOf audio_data then ".ogg"
  else if [0x49, 0x44, 0x33].isPrefixOf audio_data
          || [0xff, 0xfb].isPrefixOf audio_data then ".mp3"
  else if [0x66, 0x4c, 0x61, 0x43].isPrefixOf audio_data then ".flac"
  else ".webm"

/-! ## Python string primitives used by the post-processor -/

/-- The characters Python's `str.strip()` removes. -/
def isPySpace (c : Char) : Bool :=
  c == ' ' || c == '\t' || c == '\n' || c == '\r' || c == '\x0b' || c == '\x0c'

/-- Python `str.strip()` on a character list: drop whitespace from both ends. -/
def pyStrip (s : List Char) : List Char :=
  ((s.dropWhile isPySpace).reverse.dropWhile isPySpace).reverse

/-- Python `" ".join(texts)`: interpose a single space between the pieces. -/
def joinSpaces : List (List Char) → List Char
  | [] => []
  | [t] => t
  | t :: ts => t ++ ' ' :: joinSpaces ts

/-! ## Error taxonomy

The concrete `ValueError`s the task raises, plus the propagated engine
error (which keeps its own Python type name). -/

/-- The failures the job runner can raise (tasks.py lines 109, 116, 138,
140, 173). `engineErr ty msg` is an engine exception of Python type `ty`
re-raised unchanged. -/
inductive JobError
  | tooSmall (n : Nat)
  | conversion (diag : String)
  | corrupt (msg : String)
  | engineErr (ty : String) (msg : String)
  | emptyTranscription
deriving DecidableEq, Repr

/-- The Python type name of the exception, `type(e).__name__`. -/
def errorKind : JobError → String
  | .engineErr ty _ => ty
  | _ => "ValueError"

/-- The message of the exception, `str(e)`. -/
def errorDetail : JobError → String
  | .tooSmall n => "Archivo de audio demasiado pequeño: " ++ toString n ++ " bytes"
  | .conversion diag => "Error convirtiendo WebM a WAV: " ++ diag
  | .corrupt msg => "Archivo de audio corrupto o formato no válido: " ++ msg
  | .engineErr _ msg => msg
  | .emptyTranscription => "Transcripción vacía"

/-- The string `error_msg` of tasks.py line 191, `type` name, colon, `str` of the error. -/
def errorMsg (e : JobError) : String :=
  errorKind e ++ ": " ++ errorDetail e

/-! ## Transcription post-processing (tasks.py lines 143-173)

The loop keeps two pieces of state, the output list `segment_texts` and
the membership set `seen_texts`; both receive exactly the same
insertions, so the set is modelled as a list with the same contents. -/

/-- One iteration of the segment loop: strip the text, append it to both
the output and the seen set when it is non-empty and unseen. -/
def joinStep (acc : List (List Char) × List (List Char)) (s : List Char) :
    List (List Char) × List (List Char) :=
  let t := pyStrip s
  if t ≠ [] ∧ t ∉ acc.2 then (acc.1 ++ [t], acc.2 ++ [t]) else acc

/-- The `segment_texts` list after the loop over all segments. -/
def segmentTexts (segments : List (List Char)) : List (List Char) :=
  (segments.foldl joinStep ([], [])).1

/-- The joined, stripped transcription of tasks.py line 167. -/
def joinTranscription (segments : List (List Char)) : List Char :=
  pyStrip (joinSpaces (segmentTexts segments))

/-- Lines 143-173 as one fallible operation: the joined transcription, or
`EmptyTranscriptionError` when it is empty. -/
def joinResult (segments : List (List Char)) : Except JobError (List Char) :=
  let transcription := joinTranscription segments
  if transcription = [] then .error .emptyTranscription else .ok transcription

/-- Spec-side rendering of §4.4: consume segments in order, trim, skip
empties and already-emitted texts, keep first occurrences. `seen` is the
set of texts already emitted. -/
def specDedup (seen : List (List Char)) : List (List Char) → List (List Char)
  | [] => []
  | s :: rest =>
    let t := pyStrip s
    if t = [] ∨ t ∈ seen then specDedup seen rest
    else t :: specDedup (t :: seen) rest

/-! ## Callback delivery (`send_enterprise_callback`, tasks.py lines 213-269) -/

/-- What one HTTP POST attempt does: succeed with status 200, return some
other status code, or raise an I/O exception. -/
inductive HttpResult
  | ok200
  | status (code : Nat)
  | exn
deriving DecidableEq, Repr

/-- Observable callback actions: a POST with its per-attempt timeout, and a
sleep of a given duration. -/
inductive CbEvent
  | post (timeout : Nat)
  | sleep (d : Nat)
deriving DecidableEq, Repr

/-- The constant `max_retries = 2` (tasks.py line 224): total attempts, not extra tries. -/
def max_retries : Nat := 2

/-- Per-attempt POST timeout, `timeout = 10` (tasks.py line 225). -/
def cb_timeout : Nat := 10

/-- The `for attempt in range(1, max_retries + 1)` loop as a trace of
events. `behavior n` is the network outcome of attempt `n`; a 200 response
returns at once, anything else falls through to the inter-attempt sleep
(only when another attempt remains) and the next iteration. -/
def deliverLoop (behavior : Nat → HttpResult) : Nat → Nat → List CbEvent
  | _, 0 => []
  | attempt, fuel + 1 =>
    match behavior attempt with
    | .ok200 => [CbEvent.post cb_timeout]
    | _ =>
      if attempt < max_retries then
        CbEvent.post cb_timeout :: CbEvent.sleep 2 :: deliverLoop behavior (attempt + 1) fuel
      else
        CbEvent.post cb_timeout :: deliverLoop behavior (attempt + 1) fuel

/-- Python truthiness of an optional string (`None` and `""` are falsy). -/
def truthyStr : Option String → Bool
  | none => false
  | some s => s != ""

/-- Python truthiness of an optional text (`None` and `""` are falsy). -/
def truthyText : Option (List Char) → Bool
  | none => false
  | some t => t != []

/-- The JSON callback body (tasks.py lines 229-237): `jobId` and `status`
always; `transcription` only on a truthy completed outcome, `error` only on
a truthy failed outcome. -/
structure Payload where
  jobId : String
  status : String
  transcription : Option (List Char)
  error : Option String
deriving DecidableEq, Repr

/-- Build the payload exactly as lines 229-237 do. -/
def mkPayload (jobId status : String) (t : Option (List Char)) (e : Option String) :
    Payload where
  jobId := jobId
  status := status
  transcription := if status == "completed" && truthyText t then t else none
  error := if status == "failed" && truthyStr e then e else none

/-- Everything observable about one `send_enterprise_callback` call: the
target URL, the body, whether the `Authorization: Bearer` header was
attached, and the trace of POSTs and sleeps. The Python function returns
`None` on every path and never raises, so there is no result field. -/
structure CallbackRecord where
  url : String
  payload : Payload
  authHeader : Bool
  trace : List CbEvent
deriving DecidableEq, Repr

/-- The function `send_enterprise_callback` (tasks.py lines 213-269). -/
def send_enterprise_callback (behavior : Nat → HttpResult) (url jobId status : String)
    (t : Option (List Char)) (e : Option String) (token : Option String) :
    CallbackRecord where
  url := url
  payload := mkPayload jobId status t e
  authHeader := truthyStr token
  trace := deliverLoop behavior 1 max_retries

/-! ## Per-process model cache (`get_whisper_model`, tasks.py lines 21-40) -/

/-- The two module globals `_process_model` and `_process_id`. -/
structure PoolState where
  process_model : Option Nat
  process_id : Option Nat
deriving DecidableEq, Repr

/-- The function `get_whisper_model`: return the handle, the new globals,
and whether a construction happened.
`mk` is the handle a fresh `WhisperModel(...)` construction would
produce. The cache misses when `_process_model is None or _process_id !=
current_pid` (tasks.py line 26). -/
def get_whisper_model (pid : Nat) (mk : Nat) (s : PoolState) :
    Nat × PoolState × Bool :=
  match s.process_model with
  | none => (mk, ⟨some mk, some pid⟩, true)
  | some m =>
    if s.process_id = some pid then (m, s, false)
    else (mk, ⟨some mk, some pid⟩, true)

/-! ## The job runner (`transcribe_audio_with_callback`, tasks.py lines 48-211) -/

/-- A queued job as the task receives it. -/
structure Job where
  audio_bytes : List Nat
  job_id : Option String
  callback_url : Option String
  callback_token : Option String

/-- The function `fix_callback_url` (tasks.py lines 42-46): the VPS build returns the
URL unchanged. -/
def fix_callback_url (original_url : Option String) : Option String :=
  original_url

/-- The oracles for one invocation: the queue-assigned task id, the worker
pid, the handle a fresh engine construction would yield, the initial cache
globals, the outcome of the ffmpeg subprocess (diagnostic string on
non-zero exit), the outcome of `whisper_model.transcribe` (segments, or the
Python type name and message of the raised exception), and the network
behaviour seen by callback POSTs. -/
structure Env where
  request_id : String
  pid : Nat
  freshModel : Nat
  pool0 : PoolState
  transcoder : Except String Unit
  engine : Except (String × String) (List (List Char))
  cbBehavior : Nat → HttpResult

/-- Which of the two temporary paths of one invocation currently exist. -/
structure FS where
  orig : Bool
  wav : Bool
deriving DecidableEq, Repr

/-- Outcome of the `try` body: result, files on disk, which file
`temp_path` names, how often ffmpeg and the engine were invoked, and the
model-cache state. -/
structure CoreOut where
  result : Except JobError (List Char)
  fs : FS
  tempIsWav : Bool
  transcoderCalls : Nat
  engineCalls : Nat
  pool : PoolState
  constructed : Bool
deriving Repr

/-- Python `needle in haystack` on strings as character lists. -/
def containsSub (needle : List Char) : List Char → Bool
  | [] => needle.isPrefixOf []
  | c :: rest => needle.isPrefixOf (c :: rest) || containsSub needle rest

/-- Lines 119-173: acquire the model, transcribe, remap engine errors whose
text contains "Invalid data found" to the corrupt-audio `ValueError`
(tasks.py lines 135-140), then post-process the segments. -/
def runEngine (env : Env) (fs : FS) (tempIsWav : Bool) (tc : Nat) : CoreOut :=
  let acq := get_whisper_model env.pid env.freshModel env.pool0
  match env.engine with
  | .error (ty, msg) =>
    let e := if containsSub "Invalid data found".toList msg.toList
             then JobError.corrupt msg else JobError.engineErr ty msg
    { result := .error e, fs := fs, tempIsWav := tempIsWav, transcoderCalls := tc,
      engineCalls := 1, pool := acq.2.1, constructed := acq.2.2 }
  | .ok segs =>
    { result := joinResult segs, fs := fs, tempIsWav := tempIsWav, transcoderCalls := tc,
      engineCalls := 1, pool := acq.2.1, constructed := acq.2.2 }

/-- Lines 111-173: size validation (only reached after detection,
persistence and normalization), then transcription. -/
def afterNormalize (job : Job) (env : Env) (fs : FS) (tempIsWav : Bool) (tc : Nat) :
    CoreOut :=
  if job.audio_bytes.length < 100 then
    { result := .error (.tooSmall job.audio_bytes.length), fs := fs,
      tempIsWav := tempIsWav, transcoderCalls := tc, engineCalls := 0,
      pool := env.pool0, constructed := false }
  else runEngine env fs tempIsWav tc

/-- The `try` body (tasks.py lines 57-188): detect the format, persist the
bytes to the original temporary file, transcode webm to wav (on success
ffmpeg has written the wav file and line 104 unlinks the original; on
failure raise the conversion `ValueError`), then validate and transcribe. -/
def runCore (job : Job) (env : Env) : CoreOut :=
  let fmt := detect_audio_format job.audio_bytes
  if fmt == ".webm" then
    match env.transcoder with
    | .ok _ => afterNormalize job env ⟨false, true⟩ true 1
    | .error diag =>
      { result := .error (.conversion diag), fs := ⟨true, false⟩, tempIsWav := false,
        transcoderCalls := 1, engineCalls := 0, pool := env.pool0, constructed := false }
  else afterNormalize job env ⟨true, false⟩ false 0

/-- Whether the file `temp_path` names exists. -/
def fileAt (fs : FS) (tempIsWav : Bool) : Bool :=
  if tempIsWav then fs.wav else fs.orig

/-- The `finally` block (tasks.py lines 205-211): unlink `temp_path` only
when it exists; a file already absent is left alone and is not an error. -/
def cleanupTemp (fs : FS) (tempIsWav : Bool) : FS :=
  if fileAt fs tempIsWav then
    if tempIsWav then { fs with wav := false } else { fs with orig := false }
  else fs

/-- The assignment `actual_job_id = job_id or self.request.id` (tasks.py line 52):
Python `or` takes the right operand when the left is `None` or `""`. -/
def pyOr (a : Option String) (b : String) : String :=
  match a with
  | none => b
  | some s => if s = "" then b else s

/-- Everything observable about one task invocation. -/
structure RunResult where
  result : Except JobError (List Char)
  fs : FS
  callbacks : List CallbackRecord
  transcoderCalls : Nat
  engineCalls : Nat
  pool : PoolState
  constructed : Bool
  actualJobId : String

/-- The task `transcribe_audio_with_callback` (tasks.py lines 48-211): run the try
body; on success send the completed callback when the (fixed) callback URL
is truthy (line 181), on failure send the failed callback with
`f"{type(e).__name__}: {str(e)}"` (lines 190-203) and re-raise; in both
cases the `finally` block then removes the surviving temporary file. -/
def transcribe_audio_with_callback (job : Job) (env : Env) : RunResult :=
  let actual_job_id := pyOr job.job_id env.request_id
  let fixed_url := fix_callback_url job.callback_url
  let core := runCore job env
  let callbacks : List CallbackRecord :=
    if truthyStr fixed_url then
      match core.result with
      | .ok t =>
        [send_enterprise_callback env.cbBehavior (fixed_url.getD "") actual_job_id
          "completed" (some t) none job.callback_token]
      | .error e =>
        [send_enterprise_callback env.cbBehavior (fixed_url.getD "") actual_job_id
          "failed" none (some (errorMsg e)) job.callback_token]
    else []
  { result := core.result
    fs := cleanupTemp core.fs core.tempIsWav
    callbacks := callbacks
    transcoderCalls := core.transcoderCalls
    engineCalls := core.engineCalls
    pool := core.pool
    constructed := core.constructed
    actualJobId := actual_job_id }

/-! ## Named signatures and event predicates (for the statements) -/

/-- The `RIFF` magic prefix (tasks.py line 64). -/
def wavSig (b : List Nat) : Bool := [0x52, 0x49, 0x46, 0x46].isPrefixOf b

/-- The Matroska/WebM magic prefix (tasks.py line 66). -/
def webmSig (b : List Nat) : Bool := [0x1a, 0x45, 0xdf, 0xa3].isPrefixOf b

/-- The `OggS` magic prefix (tasks.py line 68). -/
def oggSig (b : List Nat) : Bool := [0x4f, 0x67, 0x67, 0x53].isPrefixOf b

/-- The `ID3` / MPEG frame-sync prefixes (tasks.py line 70). -/
def mp3Sig (b : List Nat) : Bool :=
  [0x49, 0x44, 0x33].isPrefixOf b || [0xff, 0xfb].isPrefixOf b

/-- The `fLaC` magic prefix (tasks.py line 72). -/
def flacSig (b : List Nat) : Bool := [0x66, 0x4c, 0x61, 0x43].isPrefixOf b

/-- Whether a callback event is an HTTP POST attempt. -/
def isPost : CbEvent → Bool
  | .post _ => true
  | .sleep _ => false

/-! ## Concrete jobs and environments used by the individual claims -/

/-- A 5-byte job matching no magic signature, with a callback URL. -/
def jobC1cex : Job :=
  { audio_bytes := [0, 0, 0, 0, 0], job_id := some "job-5",
    callback_url := some "http://cb.example/hook", callback_token := none }

/-- An environment whose ffmpeg invocation fails. -/
def envC1cex : Env :=
  { request_id := "task-1", pid := 7, freshModel := 1,
    pool0 := { process_model := none, process_id := none },
    transcoder := Except.error "ffmpeg exited 1",
    engine := Except.ok [], cbBehavior := fun _ => HttpResult.ok200 }

/-- A 5-byte RIFF-prefixed job (detected wav, so no normalization). -/
def jobC1w : Job :=
  { audio_bytes := [0x52, 0x49, 0x46, 0x46, 0x00], job_id := some "job-riff",
    callback_url := some "http://cb.example/hook", callback_token := none }

/-- An environment whose ffmpeg invocation would succeed. -/
def envC1w : Env :=
  { request_id := "task-2", pid := 7, freshModel := 1,
    pool0 := { process_model := none, process_id := none },
    transcoder := Except.ok (), engine := Except.ok [],
    cbBehavior := fun _ => HttpResult.ok200 }

/-- A 5-byte RIFF-prefixed job with callback URL and token. -/
def jobC5w : Job :=
  { audio_bytes := [0x52, 0x49, 0x46, 0x46, 0x00], job_id := some "job-c5",
    callback_url := some "http://cb.example/hook", callback_token := some "tok" }

/-- A benign environment for the failure-propagation witness. -/
def envC5w : Env :=
  { request_id := "task-3", pid := 7, freshModel := 1,
    pool0 := { process_model := none, process_id := none },
    transcoder := Except.ok (), engine := Except.ok [],
    cbBehavior := fun _ => HttpResult.ok200 }

/-- A job whose bytes carry the Matroska/WebM signature. -/
def jobC7w : Job :=
  { audio_bytes := [0x1a, 0x45, 0xdf, 0xa3], job_id := some "job-webm",
    callback_url := none, callback_token := none }

/-- An environment whose ffmpeg invocation exits non-zero. -/
def envC7w : Env :=
  { request_id := "task-4", pid := 7, freshModel := 1,
    pool0 := { process_model := none, process_id := none },
    transcoder := Except.error "Conversion failed!",
    engine := Except.ok [], cbBehavior := fun _ => HttpResult.ok200 }

/-- A job that supplies the empty string as its callback token. -/
def jobC8cex : Job :=
  { audio_bytes := [0x52, 0x49, 0x46, 0x46, 0x00], job_id := some "job-c8",
    callback_url := some "http://cb.example/hook", callback_token := some "" }

/-- A benign environment for the empty-token counterexample. -/
def envC8cex : Env :=
  { request_id := "task-5", pid := 7, freshModel := 1,
    pool0 := { process_model := none, process_id := none },
    transcoder := Except.ok (), engine := Except.ok [],
    cbBehavior := fun _ => HttpResult.ok200 }

/-- A 100-byte RIFF job with a non-empty token: the success path delivers
a completed callback. -/
def jobC8w : Job :=
  { audio_bytes := [0x52, 0x49, 0x46, 0x46] ++ List.replicate 96 0,
    job_id := some "job-b",
    callback_url := some "http://cb.example/hook", callback_token := some "tok" }

/-- An environment whose engine emits a duplicated segment sequence. -/
def envC8w : Env :=
  { request_id := "task-6", pid := 7, freshModel := 1,
    pool0 := { process_model := none, process_id := none },
    transcoder := Except.ok (),
    engine := Except.ok ["Hola".toList, "Hola".toList, "mundo".toList],
    cbBehavior := fun _ => HttpResult.ok200 }

/-- A job that supplies no job id at all. -/
def jobC10w : Job :=
  { audio_bytes := [0x52, 0x49, 0x46, 0x46, 0x00], job_id := none,
    callback_url := some "http://cb.example/hook", callback_token := none }

/-- An environment whose queue-assigned task id is `queue-task-7`. -/
def envC10w : Env :=
  { request_id := "queue-task-7", pid := 7, freshModel := 1,
    pool0 := { process_model := none, process_id := none },
    transcoder := Except.ok (), engine := Except.ok [],
    cbBehavior := fun _ => HttpResult.ok200 }

/-! ## Theorems -/

/-- C4: `detect_audio_format` is a pure total function on byte sequences
(it is a Lean function, so it never raises): its value is always one of
the five container formats, it matches the signatures in priority order
RIFF → wav, Matroska → webm, OggS → ogg, ID3/0xFF 0xFB → mp3, fLaC →
flac, and every byte sequence matching none of the signatures resolves to
webm. -/
theorem detect_audio_format_spec (b : List Nat) :
    detect_audio_format b ∈ [".wav", ".webm", ".ogg", ".mp3", ".flac"] ∧
    (detect_audio_format b = ".wav" ↔ wavSig b = true) ∧
    (detect_audio_format b = ".ogg" ↔
      (wavSig b = false ∧ webmSig b = false ∧ oggSig b = true)) ∧
    (detect_audio_format b = ".mp3" ↔
      (wavSig b = false ∧ webmSig b = false ∧ oggSig b = false ∧ mp3Sig b = true)) ∧
    (detect_audio_format b = ".flac" ↔
      (wavSig b = false ∧ webmSig b = false ∧ oggSig b = false ∧ mp3Sig b = false ∧
        flacSig b = true)) ∧
    (detect_audio_format b = ".webm" ↔
      ((wavSig b = false ∧ webmSig b = true) ∨
       (wavSig b = false ∧ webmSig b = false ∧ oggSig b = false ∧ mp3Sig b = false ∧
        flacSig b = false))) := by
  unfold detect_audio_format wavSig webmSig oggSig mp3Sig flacSig
  cases h1 : [0x52, 0x49, 0x46, 0x46].isPrefixOf b <;>
    cases h2 : [0x1a, 0x45, 0xdf, 0xa3].isPrefixOf b <;>
      cases h3 : [0x4f, 0x67, 0x67, 0x53].isPrefixOf b <;>
        cases h4 : ([0x49, 0x44, 0x33].isPrefixOf b || [0xff, 0xfb].isPrefixOf b) <;>
          cases h5 : [0x66, 0x4c, 0x61, 0x43].isPrefixOf b <;>
            simp_all

/-- Witness for C4 at a concrete input: the OggS-prefixed sequence is
classified as ogg through the characterization. -/
theorem detect_audio_format_spec_witness :
    detect_audio_format [0x4f, 0x67, 0x67, 0x53, 0x00] = ".ogg" :=
  (detect_audio_format_spec [0x4f, 0x67, 0x67, 0x53, 0x00]).2.2.1.mpr (by decide)

/-- The retry loop's trace is determined by the outcome of the first
attempt: a 200 ends the call with a single POST; anything else (non-200
status or exception) gives POST, a 2-unit sleep, and a final POST whatever
the second attempt returns. -/
lemma deliverLoop_eq (behavior : Nat → HttpResult) :
    deliverLoop behavior 1 max_retries =
      match behavior 1 with
      | .ok200 => [CbEvent.post cb_timeout]
      | _ => [CbEvent.post cb_timeout, CbEvent.sleep 2, CbEvent.post cb_timeout] := by
  cases hb1 : behavior 1 <;>
    cases hb2 : behavior 2 <;>
      simp [deliverLoop, max_retries, hb1, hb2]

/-- C3: callback delivery, for every URL, token, outcome and network
behaviour, performs at most 2 POST attempts, each with the fixed 10-unit
timeout, returns immediately after a 200 response (a single POST and
nothing after it), sleeps the fixed 2-unit delay exactly once between the
two attempts on any first-attempt failure and never after the last
attempt; the embedding is a total function into traces, so no exception
reaches the caller. -/
theorem callback_delivery_bounded (behavior : Nat → HttpResult) (url jobId status : String)
    (t : Option (List Char)) (e : Option String) (token : Option String) :
    ((send_enterprise_callback behavior url jobId status t e token).trace.countP isPost ≤ 2) ∧
    (behavior 1 = HttpResult.ok200 →
      (send_enterprise_callback behavior url jobId status t e token).trace =
        [CbEvent.post 10]) ∧
    (behavior 1 ≠ HttpResult.ok200 →
      (send_enterprise_callback behavior url jobId status t e token).trace =
        [CbEvent.post 10, CbEvent.sleep 2, CbEvent.post 10]) ∧
    (∀ n, (send_enterprise_callback behavior url jobId status t e token).trace.getLast? ≠
      some (CbEvent.sleep n)) ∧
    (∀ tmo, CbEvent.post tmo ∈
      (send_enterprise_callback behavior url jobId status t e token).trace → tmo = 10) := by
  have htr : (send_enterprise_callback behavior url jobId status t e token).trace =
      deliverLoop behavior 1 max_retries := rfl
  rw [htr, deliverLoop_eq]
  cases hb1 : behavior 1 <;> simp [cb_timeout, isPost, List.countP_cons]

/-- Witness for C3 at a concrete behaviour: both attempts raise, so the
trace is POST, 2-unit sleep, POST. -/
theorem callback_delivery_bounded_witness :
    (send_enterprise_callback (fun _ => HttpResult.exn) "http://cb" "j" "failed"
      none (some "ValueError: x") none).trace =
      [CbEvent.post 10, CbEvent.sleep 2, CbEvent.post 10] :=
  (callback_delivery_bounded (fun _ => HttpResult.exn) "http://cb" "j" "failed"
      none (some "ValueError: x") none).2.2.1 (by decide)

/-- C9: acquiring the model twice with the same process id returns the
same handle and the same cache state, the second call never constructs,
and a fresh handle is constructed exactly when the cache is empty or the
recorded process identity differs from the caller's. -/
theorem model_pool_idempotent (pid mk1 mk2 : Nat) (s0 : PoolState) :
    (get_whisper_model pid mk2 (get_whisper_model pid mk1 s0).2.1).1 =
      (get_whisper_model pid mk1 s0).1 ∧
    (get_whisper_model pid mk2 (get_whisper_model pid mk1 s0).2.1).2.1 =
      (get_whisper_model pid mk1 s0).2.1 ∧
    (get_whisper_model pid mk2 (get_whisper_model pid mk1 s0).2.1).2.2 = false ∧
    ((get_whisper_model pid mk1 s0).2.2 = true ↔
      (s0.process_model = none ∨ s0.process_id ≠ some pid)) := by
  obtain ⟨pm, pi⟩ := s0
  cases pm with
  | none => simp [get_whisper_model]
  | some m =>
    by_cases h : pi = some pid <;>
      simp [get_whisper_model, h]

/-- Witness for C9: from the empty cache, the first call constructs and
the second call returns the handle the first call produced. -/
theorem model_pool_idempotent_witness :
    (get_whisper_model 1 9 (get_whisper_model 1 5 ⟨none, none⟩).2.1).1 = 5 ∧
    (get_whisper_model 1 5 (⟨none, none⟩ : PoolState)).2.2 = true :=
  ⟨(model_pool_idempotent 1 5 9 ⟨none, none⟩).1,
   (model_pool_idempotent 1 5 9 ⟨none, none⟩).2.2.2.mpr (Or.inl rfl)⟩

/-- The size check and the transcription stage leave the filesystem
footprint and the identity of `temp_path` unchanged. -/
lemma afterNormalize_fs (job : Job) (env : Env) (fs : FS) (tw : Bool) (tc : Nat) :
    (afterNormalize job env fs tw tc).fs = fs ∧
    (afterNormalize job env fs tw tc).tempIsWav = tw := by
  unfold afterNormalize runEngine
  split_ifs
  · exact ⟨rfl, rfl⟩
  · rcases env.engine with ⟨ty, msg⟩ | segs <;> exact ⟨rfl, rfl⟩

/-- The size check and the transcription stage never invoke the
transcoder: the count is whatever the normalization stage passed in. -/
lemma afterNormalize_counts (job : Job) (env : Env) (fs : FS) (tw : Bool) (tc : Nat) :
    (afterNormalize job env fs tw tc).transcoderCalls = tc := by
  unfold afterNormalize runEngine
  split_ifs
  · rfl
  · rcases env.engine with ⟨ty, msg⟩ | segs <;> rfl

/-- On exit of the `try` body exactly one temporary file survives, and it
is the one `temp_path` names: the original when no conversion replaced it,
the wav when conversion succeeded. -/
lemma runCore_fs (job : Job) (env : Env) :
    ((runCore job env).fs = ⟨true, false⟩ ∧ (runCore job env).tempIsWav = false) ∨
    ((runCore job env).fs = ⟨false, true⟩ ∧ (runCore job env).tempIsWav = true) := by
  simp only [runCore]
  split
  · split
    · exact Or.inr (afterNormalize_fs job env ⟨false, true⟩ true 1)
    · exact Or.inl ⟨rfl, rfl⟩
  · exact Or.inl (afterNormalize_fs job env ⟨true, false⟩ false 0)

/-- C6: on every exit path of the runner — success, failure of the size
check, the transcoder, the engine, or post-processing — both temporary
files of the invocation are gone afterwards; and the cleanup is a no-op
(not a failure) when the file is already absent. The embedded cleanup is a
total function, so a cleanup failure cannot change the outcome. -/
theorem temp_files_removed (job : Job) (env : Env) :
    (transcribe_audio_with_callback job env).fs = ⟨false, false⟩ ∧
    (∀ tw : Bool, cleanupTemp ⟨false, false⟩ tw = ⟨false, false⟩) := by
  constructor
  · show cleanupTemp (runCore job env).fs (runCore job env).tempIsWav = ⟨false, false⟩
    rcases runCore_fs job env with ⟨h1, h2⟩ | ⟨h1, h2⟩ <;> rw [h1, h2] <;> rfl
  · intro tw; cases tw <;> rfl

/-! ### Shared helper lemmas about the runner -/

/-- Python truthiness of an optional string, spelled out. -/
lemma truthyStr_iff (o : Option String) :
    truthyStr o = true ↔ ∃ s, o = some s ∧ s ≠ "" := by
  cases o <;> simp [truthyStr]

/-- The structured error string is never empty: it always contains a colon. -/
lemma errorMsg_ne_empty (e : JobError) : errorMsg e ≠ "" := by
  intro h
  have hlen := congrArg String.length h
  simp [errorMsg, String.length_append] at hlen
  exact absurd hlen.1.2 (by decide)

/-- The runner's result is the try body's result: the except/finally
blocks re-raise and never replace it. -/
lemma run_result_eq (job : Job) (env : Env) :
    (transcribe_audio_with_callback job env).result = (runCore job env).result := rfl

/-- The effective job id the runner uses everywhere. -/
lemma run_actualJobId (job : Job) (env : Env) :
    (transcribe_audio_with_callback job env).actualJobId =
      pyOr job.job_id env.request_id := rfl

/-- The callbacks a run produces, by case on the outcome. -/
lemma run_callbacks_eq (job : Job) (env : Env) :
    (transcribe_audio_with_callback job env).callbacks =
      (if truthyStr (fix_callback_url job.callback_url) then
        match (runCore job env).result with
        | .ok t =>
          [send_enterprise_callback env.cbBehavior
            ((fix_callback_url job.callback_url).getD "")
            (pyOr job.job_id env.request_id) "completed" (some t) none
            job.callback_token]
        | .error e =>
          [send_enterprise_callback env.cbBehavior
            ((fix_callback_url job.callback_url).getD "")
            (pyOr job.job_id env.request_id) "failed" none (some (errorMsg e))
            job.callback_token]
      else []) := rfl

/-- A failing try body with a truthy callback URL produces exactly the
failed callback. -/
lemma failed_callback_shape (job : Job) (env : Env) (e : JobError) (u : String)
    (h : (runCore job env).result = Except.error e)
    (hu : job.callback_url = some u) (hne : u ≠ "") :
    (transcribe_audio_with_callback job env).callbacks =
      [send_enterprise_callback env.cbBehavior u (pyOr job.job_id env.request_id)
        "failed" none (some (errorMsg e)) job.callback_token] := by
  rw [run_callbacks_eq, h]
  simp [fix_callback_url, hu, truthyStr, hne]

/-- The failed payload with a non-empty error string keeps the error and
leaves the transcription empty. -/
lemma failed_payload (jobId : String) (e : String) (he : e ≠ "") :
    mkPayload jobId "failed" none (some e) =
      { jobId := jobId, status := "failed", transcription := none, error := some e } := by
  simp [mkPayload, truthyStr, truthyText, he]

/-- The completed payload with a non-empty transcription keeps the
transcription and leaves the error empty. -/
lemma completed_payload (jobId : String) (t : List Char) (ht : t ≠ []) :
    mkPayload jobId "completed" (some t) none =
      { jobId := jobId, status := "completed", transcription := some t, error := none } := by
  simp [mkPayload, truthyStr, truthyText, ht]

/-- Post-processing only returns non-empty transcriptions. -/
lemma joinResult_ok_ne_nil (segs : List (List Char)) (t : List Char)
    (h : joinResult segs = Except.ok t) : t ≠ [] := by
  simp only [joinResult] at h
  split_ifs at h with hc
  simp only [Except.ok.injEq] at h
  exact h ▸ hc

/-- The post-size stages only return non-empty transcriptions. -/
lemma afterNormalize_ok_ne_nil (job : Job) (env : Env) (fs : FS) (tw : Bool) (tc : Nat)
    (t : List Char) (h : (afterNormalize job env fs tw tc).result = Except.ok t) :
    t ≠ [] := by
  unfold afterNormalize runEngine at h
  split_ifs at h
  rcases henv : env.engine with ⟨ty, msg⟩ | segs
  · rw [henv] at h; simp at h
  · rw [henv] at h; exact joinResult_ok_ne_nil segs t h

/-- The try body only returns non-empty transcriptions. -/
lemma runCore_ok_ne_nil (job : Job) (env : Env) (t : List Char)
    (h : (runCore job env).result = Except.ok t) : t ≠ [] := by
  simp only [runCore] at h
  split at h
  · split at h
    · exact afterNormalize_ok_ne_nil job env _ _ _ t h
    · simp at h
  · exact afterNormalize_ok_ne_nil job env _ _ _ t h

/-- C5: every failure of the try body is reported as the structured
string `<ErrorKind>: <detail>` in a failed-status callback when a truthy
callback URL is present, and the runner's final result is still the
original error; the outcome never depends on how the callback POSTs
behave, so a delivery failure cannot mask the job error. -/
theorem failure_reporting (job : Job) (env : Env) (e : JobError)
    (h : (runCore job env).result = Except.error e) :
    (transcribe_audio_with_callback job env).result = Except.error e ∧
    errorMsg e = errorKind e ++ ": " ++ errorDetail e ∧
    (∀ u, job.callback_url = some u → u ≠ "" →
      ∃ r, (transcribe_audio_with_callback job env).callbacks = [r] ∧
        r.url = u ∧ r.payload.status = "failed" ∧
        r.payload.error = some (errorMsg e) ∧ r.payload.transcription = none) ∧
    (∀ b1 b2 : Nat → HttpResult,
      (transcribe_audio_with_callback job { env with cbBehavior := b1 }).result =
        (transcribe_audio_with_callback job { env with cbBehavior := b2 }).result) := by
  refine ⟨(run_result_eq job env).trans h, rfl, ?_, fun b1 b2 => rfl⟩
  intro u hu hne
  refine ⟨_, failed_callback_shape job env e u h hu hne, rfl, rfl, ?_, ?_⟩
  · show (mkPayload (pyOr job.job_id env.request_id) "failed" none
      (some (errorMsg e))).error = some (errorMsg e)
    rw [failed_payload _ _ (errorMsg_ne_empty e)]
  · show (mkPayload (pyOr job.job_id env.request_id) "failed" none
      (some (errorMsg e))).transcription = none
    rw [failed_payload _ _ (errorMsg_ne_empty e)]

/-- Witness for C5: the 5-byte RIFF job fails with the too-small error
and the runner re-raises exactly it. -/
theorem failure_reporting_witness :
    (transcribe_audio_with_callback jobC5w envC5w).result =
      Except.error (JobError.tooSmall 5) :=
  (failure_reporting jobC5w envC5w (JobError.tooSmall 5) rfl).1

/-- Counterexample to C1: a 5-byte input matching no signature falls back
to webm, so the runner persists it and invokes the transcoder before ever
reaching the size check; with a failing transcoder the job fails with the
conversion error, not the too-small error. -/
theorem size_check_not_first_cex :
    jobC1cex.audio_bytes.length = 5 ∧
    (transcribe_audio_with_callback jobC1cex envC1cex).result =
      Except.error (JobError.conversion "ffmpeg exited 1") ∧
    (transcribe_audio_with_callback jobC1cex envC1cex).transcoderCalls = 1 :=
  ⟨rfl, rfl, rfl⟩

/-- C1 (amended): a job whose `audio_bytes` is below 100 bytes fails
before any transcription is attempted, but the size check runs only after
format detection, temp-file persistence and webm normalization; whenever
normalization is skipped or succeeds the failure is the too-small error,
and a supplied callback URL receives the failed callback carrying that
error's message. -/
theorem size_validated_after_pipeline (job : Job) (env : Env)
    (hsize : job.audio_bytes.length < 100)
    (hconv : detect_audio_format job.audio_bytes = ".webm" →
      env.transcoder = Except.ok ()) :
    (transcribe_audio_with_callback job env).result =
      Except.error (JobError.tooSmall job.audio_bytes.length) ∧
    (transcribe_audio_with_callback job env).engineCalls = 0 ∧
    (∀ u, job.callback_url = some u → u ≠ "" →
      ∃ r, (transcribe_audio_with_callback job env).callbacks = [r] ∧
        r.payload.status = "failed" ∧
        r.payload.error =
          some (errorMsg (JobError.tooSmall job.audio_bytes.length))) := by
  have hcore : (runCore job env).result =
      Except.error (JobError.tooSmall job.audio_bytes.length) ∧
      (runCore job env).engineCalls = 0 := by
    simp only [runCore]
    split
    case isTrue hw =>
      rw [hconv (by simpa using hw)]
      unfold afterNormalize
      rw [if_pos hsize]
      exact ⟨rfl, rfl⟩
    case isFalse hw =>
      unfold afterNormalize
      rw [if_pos hsize]
      exact ⟨rfl, rfl⟩
  refine ⟨(run_result_eq job env).trans hcore.1, hcore.2, ?_⟩
  intro u hu hne
  refine ⟨_, failed_callback_shape job env _ u hcore.1 hu hne, rfl, ?_⟩
  show (mkPayload (pyOr job.job_id env.request_id) "failed" none
    (some (errorMsg (JobError.tooSmall job.audio_bytes.length)))).error = _
  rw [failed_payload _ _ (errorMsg_ne_empty _)]

/-- Witness for C1 (amended): the 5-byte RIFF-prefixed job fails with the
too-small error without any transcription. -/
theorem size_validated_after_pipeline_witness :
    (transcribe_audio_with_callback jobC1w envC1w).result =
      Except.error (JobError.tooSmall 5) ∧
    (transcribe_audio_with_callback jobC1w envC1w).engineCalls = 0 :=
  ⟨(size_validated_after_pipeline jobC1w envC1w (by decide) (fun _ => rfl)).1,
   (size_validated_after_pipeline jobC1w envC1w (by decide) (fun _ => rfl)).2.1⟩

/-- C7: the transcoder is invoked exactly for webm-detected inputs (never
for wav, ogg, mp3 or flac detections), at most once per job (no retry);
when it exits non-zero the job's result is the conversion error whose
detail carries the transcoder's diagnostic output, and the engine is
never invoked. -/
theorem normalization_only_for_webm (job : Job) (env : Env) :
    ((transcribe_audio_with_callback job env).transcoderCalls = 1 ↔
      detect_audio_format job.audio_bytes = ".webm") ∧
    (transcribe_audio_with_callback job env).transcoderCalls ≤ 1 ∧
    (∀ d, detect_audio_format job.audio_bytes = ".webm" →
      env.transcoder = Except.error d →
      (transcribe_audio_with_callback job env).result =
        Except.error (JobError.conversion d) ∧
      (transcribe_audio_with_callback job env).engineCalls = 0 ∧
      errorDetail (JobError.conversion d) = "Error convirtiendo WebM a WAV: " ++ d) := by
  refine ⟨?_, ?_, ?_⟩
  · show (runCore job env).transcoderCalls = 1 ↔ _
    simp only [runCore]
    split
    case isTrue hw =>
      have hw' : detect_audio_format job.audio_bytes = ".webm" := by simpa using hw
      rcases henv : env.transcoder with d | u
      · simp [hw']
      · rw [afterNormalize_counts]; simp [hw']
    case isFalse hw =>
      have hw' : ¬ detect_audio_format job.audio_bytes = ".webm" := by simpa using hw
      rw [afterNormalize_counts]; simp [hw']
  · show (runCore job env).transcoderCalls ≤ 1
    simp only [runCore]
    split
    · rcases henv : env.transcoder with d | u
      · exact Nat.le_refl 1
      · rw [afterNormalize_counts]
    · rw [afterNormalize_counts]; exact Nat.zero_le 1
  · intro d hw htr
    have hb : (detect_audio_format job.audio_bytes == ".webm") = true := by simp [hw]
    refine ⟨?_, ?_, rfl⟩
    · show (runCore job env).result = _
      simp only [runCore]
      rw [if_pos hb, htr]
    · show (runCore job env).engineCalls = 0
      simp only [runCore]
      rw [if_pos hb, htr]

/-- Witness for C7: the webm-signature job with a failing transcoder ends
in the conversion error without a transcription attempt. -/
theorem normalization_only_for_webm_witness :
    (transcribe_audio_with_callback jobC7w envC7w).result =
      Except.error (JobError.conversion "Conversion failed!") ∧
    (transcribe_audio_with_callback jobC7w envC7w).engineCalls = 0 := by
  have h := (normalization_only_for_webm jobC7w envC7w).2.2 "Conversion failed!"
    (by decide) rfl
  exact ⟨h.1, h.2.1⟩

/-- Counterexample to C8: a job that supplies the empty string as its
callback token gets its callback delivered without the Authorization
header — the header is attached on Python truthiness, not on presence. -/
theorem auth_header_iff_supplied_cex :
    jobC8cex.callback_token = some "" ∧
    (transcribe_audio_with_callback jobC8cex envC8cex).callbacks.map
      CallbackRecord.authHeader = [false] :=
  ⟨rfl, rfl⟩

/-- C8 (amended): every callback the runner delivers populates exactly
one of the `transcription`/`error` body fields, the populated field
matching the status (`transcription` iff completed, `error` iff failed),
and the `Authorization: Bearer` header is attached iff a non-empty
callback token was supplied. -/
theorem callback_payload_exclusive (job : Job) (env : Env) (r : CallbackRecord)
    (hr : r ∈ (transcribe_audio_with_callback job env).callbacks) :
    (r.authHeader = true ↔ ∃ tok, job.callback_token = some tok ∧ tok ≠ "") ∧
    ((r.payload.status = "completed" ∧
        (∃ t, r.payload.transcription = some t ∧ t ≠ []) ∧ r.payload.error = none) ∨
      (r.payload.status = "failed" ∧
        (∃ s, r.payload.error = some s ∧ s ≠ "") ∧
        r.payload.transcription = none)) := by
  rw [run_callbacks_eq] at hr
  by_cases hurl : truthyStr (fix_callback_url job.callback_url) = true
  case neg => rw [if_neg hurl] at hr; simp at hr
  rw [if_pos hurl] at hr
  rcases hres : (runCore job env).result with e | t
  · rw [hres] at hr
    simp only [List.mem_singleton] at hr
    subst hr
    refine ⟨truthyStr_iff job.callback_token, Or.inr ⟨rfl, ⟨errorMsg e, ?_, errorMsg_ne_empty e⟩, ?_⟩⟩
    · show (mkPayload (pyOr job.job_id env.request_id) "failed" none
        (some (errorMsg e))).error = some (errorMsg e)
      rw [failed_payload _ _ (errorMsg_ne_empty e)]
    · show (mkPayload (pyOr job.job_id env.request_id) "failed" none
        (some (errorMsg e))).transcription = none
      rw [failed_payload _ _ (errorMsg_ne_empty e)]
  · rw [hres] at hr
    simp only [List.mem_singleton] at hr
    subst hr
    have ht : t ≠ [] := runCore_ok_ne_nil job env t hres
    refine ⟨truthyStr_iff job.callback_token, Or.inl ⟨rfl, ⟨t, ?_, ht⟩, ?_⟩⟩
    · show (mkPayload (pyOr job.job_id env.request_id) "completed"
        (some t) none).transcription = some t
      rw [completed_payload _ _ ht]
    · show (mkPayload (pyOr job.job_id env.request_id) "completed"
        (some t) none).error = none
      rw [completed_payload _ _ ht]

/-- Witness for C8 (amended): the 100-byte RIFF job with the duplicated
segment sequence delivers a completed callback whose Authorization header
is attached for its non-empty token. -/
theorem callback_payload_exclusive_witness :
    ∃ r ∈ (transcribe_audio_with_callback jobC8w envC8w).callbacks,
      r.authHeader = true := by
  have hr : send_enterprise_callback envC8w.cbBehavior "http://cb.example/hook" "job-b"
      "completed" (some "Hola mundo".toList) none (some "tok") ∈
      (transcribe_audio_with_callback jobC8w envC8w).callbacks := by decide
  exact ⟨_, hr,
    ((callback_payload_exclusive jobC8w envC8w _ hr).1).mpr ⟨"tok", rfl, by decide⟩⟩

/-- C10: a job whose supplied job id is `None` or the empty string runs
under the queue-assigned task id, and every callback body of the job
reports that substituted id. -/
theorem queue_id_substitution (job : Job) (env : Env)
    (h : job.job_id = none ∨ job.job_id = some "") :
    (transcribe_audio_with_callback job env).actualJobId = env.request_id ∧
    ∀ r ∈ (transcribe_audio_with_callback job env).callbacks,
      r.payload.jobId = env.request_id := by
  have hid : pyOr job.job_id env.request_id = env.request_id := by
    rcases h with h | h <;> simp [pyOr, h]
  refine ⟨(run_actualJobId job env).trans hid, ?_⟩
  intro r hr
  rw [run_callbacks_eq] at hr
  by_cases hurl : truthyStr (fix_callback_url job.callback_url) = true
  case neg => rw [if_neg hurl] at hr; simp at hr
  rw [if_pos hurl] at hr
  rcases hres : (runCore job env).result with e | t <;> rw [hres] at hr <;>
    simp only [List.mem_singleton] at hr <;> subst hr <;> exact hid

/-- Witness for C10: with no job id supplied, the effective id is the
queue-assigned task id and the callback body reports it. -/
theorem queue_id_substitution_witness :
    (transcribe_audio_with_callback jobC10w envC10w).actualJobId = "queue-task-7" ∧
    ∀ r ∈ (transcribe_audio_with_callback jobC10w envC10w).callbacks,
      r.payload.jobId = "queue-task-7" :=
  queue_id_substitution jobC10w envC10w (Or.inl rfl)

/-! ### Post-processing lemmas (for C2) -/

/-- The first element `dropWhile` keeps fails the predicate. -/
lemma dropWhile_head?_not {α : Type} (p : α → Bool) :
    ∀ (l : List α) (c : α), (List.dropWhile p l).head? = some c → p c = false := by
  intro l
  induction l with
  | nil => intro c h; simp [List.dropWhile] at h
  | cons a l ih =>
    intro c h
    rw [List.dropWhile_cons] at h
    by_cases hp : p a = true
    · rw [if_pos hp] at h; exact ih c h
    · rw [if_neg hp] at h
      simp only [List.head?_cons, Option.some.injEq] at h
      subst h
      cases hpa : p a
      · rfl
      · exact absurd hpa hp

/-- A non-empty remainder of `dropWhile` ends where the whole list ends. -/
lemma getLast?_dropWhile {α : Type} (p : α → Bool) :
    ∀ (l : List α), List.dropWhile p l ≠ [] →
      (List.dropWhile p l).getLast? = l.getLast? := by
  intro l
  induction l with
  | nil => intro h; exact absurd rfl h
  | cons a l ih =>
    intro h
    rw [List.dropWhile_cons] at h ⊢
    by_cases hp : p a = true
    · rw [if_pos hp] at h ⊢
      rw [ih h]
      cases l with
      | nil => simp [List.dropWhile] at h
      | cons b l' => exact (List.getLast?_cons_cons).symm
    · rw [if_neg hp]

/-- A string strips to nothing exactly when it is all whitespace. -/
lemma pyStrip_eq_nil_iff (l : List Char) :
    pyStrip l = [] ↔ ∀ c ∈ l, isPySpace c = true := by
  unfold pyStrip
  rw [List.reverse_eq_nil_iff, List.dropWhile_eq_nil_iff]
  constructor
  · intro h c hc
    have hsplit := List.takeWhile_append_dropWhile isPySpace l
    rw [← hsplit] at hc
    rcases List.mem_append.mp hc with h1 | h2
    · exact List.mem_takeWhile_imp h1
    · exact h c (by simpa using h2)
  · intro h c hc
    rw [List.mem_reverse] at hc
    have hcl : c ∈ l := by
      have hsplit := List.takeWhile_append_dropWhile isPySpace l
      rw [← hsplit]
      exact List.mem_append_right _ hc
    exact h c hcl

/-- The first character of a stripped string is not whitespace. -/
lemma pyStrip_head?_not (l : List Char) (c : Char)
    (h : (pyStrip l).head? = some c) : isPySpace c = false := by
  unfold pyStrip at h
  rw [List.head?_reverse] at h
  have hne : List.dropWhile isPySpace ((List.dropWhile isPySpace l).reverse) ≠ [] := by
    intro e; rw [e] at h; simp at h
  rw [getLast?_dropWhile isPySpace _ hne, List.getLast?_reverse] at h
  exact dropWhile_head?_not isPySpace l c h

/-- The last character of a stripped string is not whitespace. -/
lemma pyStrip_getLast?_not (l : List Char) (c : Char)
    (h : (pyStrip l).getLast? = some c) : isPySpace c = false := by
  unfold pyStrip at h
  rw [List.getLast?_reverse] at h
  exact dropWhile_head?_not isPySpace _ c h

/-- A string whose two ends are not whitespace strips to itself. -/
lemma pyStrip_fix (l : List Char)
    (hh : ∀ c, l.head? = some c → isPySpace c = false)
    (hl : ∀ c, l.getLast? = some c → isPySpace c = false) :
    pyStrip l = l := by
  cases l with
  | nil => rfl
  | cons a l' =>
    have ha : isPySpace a = false := hh a rfl
    unfold pyStrip
    rw [List.dropWhile_cons, if_neg (by simp [ha])]
    cases hr : (a :: l').reverse with
    | nil => simp at hr
    | cons b r =>
      have hb : (a :: l').getLast? = some b := by
        rw [← List.head?_reverse, hr]; rfl
      have hbs : isPySpace b = false := hl b hb
      rw [List.dropWhile_cons, if_neg (by simp [hbs]), ← hr,
        List.reverse_reverse]

/-- Stripping is idempotent. -/
lemma pyStrip_idem (l : List Char) : pyStrip (pyStrip l) = pyStrip l :=
  pyStrip_fix (pyStrip l) (pyStrip_head?_not l) (pyStrip_getLast?_not l)

/-- Every text the deduplicator emits is non-empty and already stripped. -/
lemma mem_specDedup (t : List Char) (segs : List (List Char)) :
    ∀ seen, t ∈ specDedup seen segs → t ≠ [] ∧ pyStrip t = t := by
  induction segs with
  | nil => intro seen h; simp [specDedup] at h
  | cons s rest ih =>
    intro seen h
    simp only [specDedup] at h
    split_ifs at h with hc
    · exact ih seen h
    · rcases List.mem_cons.mp h with rfl | hmem
      · exact ⟨fun e => hc (Or.inl e), pyStrip_idem s⟩
      · exact ih _ hmem

/-- The deduplicator only looks at membership of `seen`, not its order. -/
lemma specDedup_congr (segs : List (List Char)) :
    ∀ s1 s2, (∀ x, x ∈ s1 ↔ x ∈ s2) → specDedup s1 segs = specDedup s2 segs := by
  induction segs with
  | nil => intro _ _ _; rfl
  | cons s rest ih =>
    intro s1 s2 hiff
    simp only [specDedup]
    by_cases hc : pyStrip s = [] ∨ pyStrip s ∈ s1
    · have hc2 : pyStrip s = [] ∨ pyStrip s ∈ s2 := by
        rcases hc with h | h
        · exact Or.inl h
        · exact Or.inr ((hiff _).mp h)
      rw [if_pos hc, if_pos hc2]
      exact ih s1 s2 hiff
    · have hc2 : ¬(pyStrip s = [] ∨ pyStrip s ∈ s2) := by
        intro h
        apply hc
        rcases h with h | h
        · exact Or.inl h
        · exact Or.inr ((hiff _).mpr h)
      rw [if_neg hc, if_neg hc2,
        ih (pyStrip s :: s1) (pyStrip s :: s2)
          (fun x => by simp [List.mem_cons, hiff x])]

/-- The code's fold, with `seen_texts` and `segment_texts` holding the
same insertions, computes the spec-side deduplication. -/
lemma foldl_joinStep_eq (segs : List (List Char)) :
    ∀ acc, segs.foldl joinStep (acc, acc) =
      (acc ++ specDedup acc segs, acc ++ specDedup acc segs) := by
  induction segs with
  | nil => intro acc; simp [specDedup]
  | cons s rest ih =>
    intro acc
    rw [List.foldl_cons]
    simp only [joinStep, specDedup]
    by_cases hc : pyStrip s = [] ∨ pyStrip s ∈ acc
    · have hcond : ¬(pyStrip s ≠ [] ∧ pyStrip s ∉ acc) := by tauto
      rw [if_neg hcond, if_pos hc]
      exact ih acc
    · have hc' : pyStrip s ≠ [] ∧ pyStrip s ∉ acc := by
        push_neg at hc; exact hc
      rw [if_pos hc', if_neg hc, ih (acc ++ [pyStrip s]),
        specDedup_congr rest (acc ++ [pyStrip s]) (pyStrip s :: acc)
          (fun x => by simp [List.mem_append, List.mem_cons, or_comm])]
      simp [List.append_assoc]

/-- The code's `segment_texts` list is the spec-side deduplication. -/
lemma segmentTexts_eq (segs : List (List Char)) :
    segmentTexts segs = specDedup [] segs := by
  unfold segmentTexts
  rw [foldl_joinStep_eq segs []]
  simp

/-- The join of a non-empty first piece starts with that piece. -/
lemma joinSpaces_head? (t : List Char) (ts : List (List Char)) (ht : t ≠ []) :
    (joinSpaces (t :: ts)).head? = t.head? := by
  cases ts with
  | nil => rfl
  | cons t2 ts2 =>
    show (t ++ ' ' :: joinSpaces (t2 :: ts2)).head? = t.head?
    exact List.head?_append_of_ne_nil t ht

/-- The join of non-empty pieces is non-empty. -/
lemma joinSpaces_ne_nil (t : List Char) (ts : List (List Char)) (ht : t ≠ []) :
    joinSpaces (t :: ts) ≠ [] := by
  have hh := joinSpaces_head? t ts ht
  intro e
  rw [e] at hh
  cases t with
  | nil => exact ht rfl
  | cons c t' => simp at hh

/-- The join of non-empty pieces ends where one of the pieces ends. -/
lemma joinSpaces_getLast?_mem :
    ∀ (texts : List (List Char)), texts ≠ [] → (∀ x ∈ texts, x ≠ []) →
      ∃ x ∈ texts, (joinSpaces texts).getLast? = x.getLast? := by
  intro texts
  induction texts with
  | nil => intro h _; exact absurd rfl h
  | cons t ts ih =>
    intro _ hmem
    cases ts with
    | nil => exact ⟨t, by simp, rfl⟩
    | cons t2 ts2 =>
      obtain ⟨x, hx, hlast⟩ :=
        ih (by simp) (fun y hy => hmem y (List.mem_cons_of_mem _ hy))
      refine ⟨x, List.mem_cons_of_mem _ hx, ?_⟩
      show (t ++ ' ' :: joinSpaces (t2 :: ts2)).getLast? = x.getLast?
      have hne : joinSpaces (t2 :: ts2) ≠ [] :=
        joinSpaces_ne_nil t2 ts2 (hmem t2 (by simp))
      rw [List.getLast?_append_of_ne_nil t (by simp),
        show (' ' :: joinSpaces (t2 :: ts2)) = [' '] ++ joinSpaces (t2 :: ts2) from rfl,
        List.getLast?_append_of_ne_nil _ hne, hlast]

/-- Line 167's final `.strip()` is the identity here: the joined text
already starts and ends with non-whitespace, so the code's transcription
is exactly the space-join of the deduplicated stripped texts. -/
lemma joinTranscription_eq (segs : List (List Char)) :
    joinTranscription segs = joinSpaces (specDedup [] segs) := by
  unfold joinTranscription
  rw [segmentTexts_eq]
  cases hsd : specDedup [] segs with
  | nil => rfl
  | cons t ts =>
    apply pyStrip_fix
    · intro c hc
      have ht := mem_specDedup t segs [] (hsd ▸ List.mem_cons_self t ts)
      rw [joinSpaces_head? t ts ht.1] at hc
      rw [← ht.2] at hc
      exact pyStrip_head?_not t c hc
    · intro c hc
      obtain ⟨x, hx, hlast⟩ := joinSpaces_getLast?_mem (t :: ts) (by simp)
        (fun y hy => (mem_specDedup y segs [] (hsd ▸ hy)).1)
      rw [hlast] at hc
      have hxp := mem_specDedup x segs [] (hsd ▸ hx)
      rw [← hxp.2] at hc
      exact pyStrip_getLast?_not x c hc

/-- The deduplicator emits nothing exactly when every segment strips to
nothing or to an already-seen text. -/
lemma specDedup_eq_nil_iff (segs : List (List Char)) :
    ∀ seen, specDedup seen segs = [] ↔
      ∀ s ∈ segs, pyStrip s = [] ∨ pyStrip s ∈ seen := by
  induction segs with
  | nil => intro seen; simp [specDedup]
  | cons s rest ih =>
    intro seen
    simp only [specDedup]
    split_ifs with hc
    · rw [ih seen]
      constructor
      · intro h x hx
        rcases List.mem_cons.mp hx with rfl | hx'
        · exact hc
        · exact h x hx'
      · intro h x hx
        exact h x (List.mem_cons_of_mem _ hx)
    · constructor
      · intro h
        exact absurd h (by simp)
      · intro h
        exact absurd (h s (List.mem_cons_self s rest)) hc

/-- C2: post-processing consumes the segments in order, strips each one,
drops empty and previously-emitted texts keeping first occurrences, and
joins the rest with single spaces (`segmentTexts`/`joinTranscription`
versus the spec-side `specDedup`/`joinSpaces`); it returns the
empty-transcription error exactly when every segment strips to nothing,
and otherwise the non-empty joined transcript. -/
theorem join_post_processing (segs : List (List Char)) :
    segmentTexts segs = specDedup [] segs ∧
    joinTranscription segs = joinSpaces (specDedup [] segs) ∧
    (joinResult segs = Except.error JobError.emptyTranscription ↔
      ∀ s ∈ segs, pyStrip s = []) ∧
    (∀ t, joinResult segs = Except.ok t →
      t = joinSpaces (specDedup [] segs) ∧ t ≠ []) := by
  have hjt := joinTranscription_eq segs
  have hnil : joinTranscription segs = [] ↔ ∀ s ∈ segs, pyStrip s = [] := by
    rw [hjt]
    constructor
    · intro h
      have hsd : specDedup [] segs = [] := by
        cases hc : specDedup [] segs with
        | nil => rfl
        | cons t ts =>
          have ht := mem_specDedup t segs [] (hc ▸ List.mem_cons_self t ts)
          rw [hc] at h
          exact absurd h (joinSpaces_ne_nil t ts ht.1)
      intro s hs
      rcases (specDedup_eq_nil_iff segs []).mp hsd s hs with h' | h'
      · exact h'
      · simp at h'
    · intro h
      have hsd : specDedup [] segs = [] :=
        (specDedup_eq_nil_iff segs []).mpr (fun s hs => Or.inl (h s hs))
      rw [hsd]
      rfl
  refine ⟨segmentTexts_eq segs, hjt, ?_, ?_⟩
  · constructor
    · intro h
      by_cases hc : joinTranscription segs = []
      · exact hnil.mp hc
      · simp only [joinResult] at h
        rw [if_neg hc] at h
        exact absurd h (by simp)
    · intro h
      simp only [joinResult]
      rw [if_pos (hnil.mpr h)]
  · intro t h
    simp only [joinResult] at h
    split_ifs at h with hc
    simp only [Except.ok.injEq] at h
    subst h
    exact ⟨hjt, hc⟩

/-- Witness for C2: an all-whitespace segment sequence fails with the
empty-transcription error, and a duplicated sequence deduplicates. -/
theorem join_post_processing_witness :
    joinResult [[' ', '\t'], []] = Except.error JobError.emptyTranscription ∧
    segmentTexts [['H', 'i'], ['H', 'i'], [' ', 'y', 'o']] =
      specDedup [] [['H', 'i'], ['H', 'i'], [' ', 'y', 'o']] :=
  ⟨((join_post_processing [[' ', '\t'], []]).2.2.1).mpr (by decide),
   (join_post_processing [['H', 'i'], ['H', 'i'], [' ', 'y', 'o']]).1⟩

end Transcription

